import Mathlib

/-!
Verification of the FemtoControl Tango device server.

Shallow embedding of `FemtoControl.py`: a Tango device server that talks to a
Femto DLPCA-200 current amplifier through an Arduino speaking an ASCII line
protocol over UDP.

Modelling conventions:
* Machine state (the `self.__*` attributes of the `FemtoControl` class) is the
  structure `FemtoState`; each Python method becomes a pure function from the
  current state (plus the current time `time.time()` and the bytes the socket
  would deliver) to a result record.
* Time (`time.time()`) is modelled as an exact rational; IEEE floating point
  rounding is abstracted away (`0.5` and `10` are exactly representable, and no
  claim depends on rounding of time arithmetic).
* The socket is modelled by an `Option String` argument: `none` means the
  `recv` loop raised `socket.timeout` / `socket.error` (in which case the code
  sets `ret = ''`), `some r` means the loop accumulated the text `r`.
* A Python exception escaping a method is modelled by an `error` flag in the
  result record; assignments executed before the raising statement are kept,
  exactly as in CPython.
-/

/-- Tango `DevState` values used by the source (`tango.DevState`). -/
inductive DevState where
  | ON
  | OFF
  | FAULT
  deriving DecidableEq, Repr

/-- Source enum `class CouplingMode(IntEnum): AC = 0; DC = 1`. -/
inductive CouplingMode where
  | AC
  | DC
  deriving DecidableEq, Repr

/-- Integer value of a `CouplingMode`, as the `IntEnum` prescribes. -/
def CouplingMode.val : CouplingMode → Nat
  | .AC => 0
  | .DC => 1

/-- Source enum `class SpeedMode(IntEnum): High = 0; Low = 1`. -/
inductive SpeedMode where
  | High
  | Low
  deriving DecidableEq, Repr

/-- Integer value of a `SpeedMode`, as the `IntEnum` prescribes. -/
def SpeedMode.val : SpeedMode → Nat
  | .High => 0
  | .Low => 1

/-- The mutable per-instance attributes of the `FemtoControl` device:
`__gain`, `__coupling`, `__speed`, `__overload` (ints parsed from the
`STATUS?` reply), `__temperature`, `__humidity` (floats parsed from the
`TEMP?` reply, kept as exact rationals), the two throttle timestamps
`__last_status_read` and `__last_temp_read`, and the Tango device state set
via `set_state`. -/
structure FemtoState where
  gain : Nat
  coupling : Nat
  speed : Nat
  overload : Nat
  temperature : ℚ
  humidity : ℚ
  lastStatusRead : ℚ
  lastTempRead : ℚ
  devState : DevState
  deriving DecidableEq, Repr

/-- One `write_read` round trip: the command line sent on the socket and the
string value the Python method returns. -/
structure Exchange where
  sent : List String
  payload : String
  deriving DecidableEq, Repr

/-- Result of a refreshing method (`update_status` / `read_temp_humidity`):
the state after the call, the command lines sent, and whether a Python
exception escaped the method. -/
structure RefreshResult where
  state : FemtoState
  sent : List String
  error : Bool
  deriving DecidableEq, Repr

/-- Result of a write method (`write_gain` / `write_coupling` /
`write_speed`): the state after the call and the command lines sent. -/
structure WriteResult where
  state : FemtoState
  sent : List String
  deriving DecidableEq, Repr

/-- Does `tok` occur at the head of `s`? (Helper for Python's `in`.) -/
def tokAt : List Char → List Char → Bool
  | [], _ => true
  | _ :: _, [] => false
  | t :: ts, c :: cs => t = c && tokAt ts cs

/-- Python's substring test `tok in s` on character lists. -/
def containsTok (tok : List Char) : List Char → Bool
  | [] => tok.isEmpty
  | c :: cs => tokAt tok (c :: cs) || containsTok tok cs

/-- The characters of the acknowledgement token `'DONE'`. -/
def doneTok : List Char := ['D', 'O', 'N', 'E']

/-- Embedding of:
```
def write_read(self, cmd):
    try:
        self.con.send('{:s}\n'.format(cmd).encode('ascii'))
        ret = self.con.recv(1024).decode('ascii')
        while (ret.find('\n') == -1):
            ret += self.con.recv(1024).decode('ascii')
    except socket.timeout:
        ret = ''
    except socket.error:
        ret = ''
    if 'DONE' in ret:
        ret = ''
    else:
        ret = ret
    return ret
```
`recv = none` models the `except` paths (accumulated text replaced by `''`);
`recv = some r` models the loop having accumulated `r`. Note the `else`
branch is `ret = ret`: the accumulated text is returned unchanged, in
particular the trailing `'\n'` delimiter is not stripped. -/
def write_read (cmd : String) (recv : Option String) : Exchange :=
  let ret := match recv with
    | none => ""
    | some r => r
  if containsTok doneTok ret.data then ⟨[cmd], ""⟩ else ⟨[cmd], ret⟩

/-- Python whitespace as stripped by `int(str)`. -/
def isPySpace (c : Char) : Bool :=
  c = ' ' || c = '\t' || c = '\n' || c = '\r' || c = '\x0b' || c = '\x0c'

/-- Strip leading and trailing Python whitespace. -/
def stripWS (cs : List Char) : List Char :=
  ((cs.dropWhile isPySpace).reverse.dropWhile isPySpace).reverse

/-- Python `int(s, base=2)` on the strings arising here: after stripping
whitespace the string must be a non-empty run of `'0'`/`'1'` digits (the
sign/underscore forms accepted by CPython never occur in device replies and
are not modelled). -/
def pyIntBase2 (cs : List Char) : Option Nat :=
  let t := stripWS cs
  if t ≠ [] ∧ t.all (fun c => c = '0' || c = '1') then
    some (t.foldl (fun a c => 2 * a + (c.toNat - 48)) 0)
  else
    none

/-- Python `int(c)` on a single character: succeeds exactly on the ASCII
digits `'0'`–`'9'`. -/
def pyIntDigit (c : Char) : Option Nat :=
  if c.isDigit then some (c.toNat - 48) else none

/-- Embedding of `[int(s) for s in status[3:6]]` followed by the unpacking
`coupling, speed, overload = ...`: every character must be a digit and there
must be exactly three of them, otherwise a `ValueError` is raised before any
of the three attributes is assigned. -/
def parse3Digits (cs : List Char) : Option (Nat × Nat × Nat) :=
  match cs.mapM pyIntDigit with
  | none => none
  | some [c, sp, ov] => some (c, sp, ov)
  | some _ => none

/-- The full parse of a `STATUS?` payload `status`: gain from
`int(status[:3][::-1], base=2)` and coupling/speed/overload from
`status[3:6]`. `none` when `update_status` would raise while parsing. -/
def statusParse (status : String) : Option (Nat × Nat × Nat × Nat) :=
  match pyIntBase2 (status.data.take 3).reverse with
  | none => none
  | some g =>
    match parse3Digits ((status.data.drop 3).take 3) with
    | none => none
    | some (c, sp, ov) => some (g, c, sp, ov)

/-- Embedding of:
```
def update_status(self):
    if time.time() - self.__last_status_read > 0.5:
        status = self.write_read("STATUS?")
        self.__gain = int(status[:3][::-1], base=2)
        coupling, speed, overload = [int(s) for s in status[3:6]]
        self.__overload = overload
        self.__speed = speed
        self.__coupling = coupling
        self.__last_status_read = time.time()
        if self.__overload:
            self.set_state(DevState.FAULT)
        else:
            self.set_state(DevState.ON)
```
`now` stands for both `time.time()` calls (the exchange round trip time is
not modelled; the claims are insensitive to the stamp being taken after the
exchange). The Python local `status` is `(write_read "STATUS?" recv).payload`
(written out at each use). The two parse stages are kept separate because
CPython executes `self.__gain = ...` before parsing `status[3:6]`: a reply
whose first three characters parse as binary but whose remainder does not
leaves `__gain` updated while the other attributes, the timestamp and the
Tango state keep their previous values. -/
def update_status (now : ℚ) (recv : Option String) (s : FemtoState) :
    RefreshResult :=
  if 1/2 < now - s.lastStatusRead then
    match pyIntBase2 ((write_read "STATUS?" recv).payload.data.take 3).reverse with
    | none => ⟨s, (write_read "STATUS?" recv).sent, true⟩
    | some g =>
      match parse3Digits (((write_read "STATUS?" recv).payload.data.drop 3).take 3) with
      | none => ⟨{ s with gain := g }, (write_read "STATUS?" recv).sent, true⟩
      | some (c, sp, ov) =>
        ⟨{ s with
            gain := g
            coupling := c
            speed := sp
            overload := ov
            lastStatusRead := now
            devState := if ov ≠ 0 then DevState.FAULT else DevState.ON },
          (write_read "STATUS?" recv).sent, false⟩
  else ⟨s, [], false⟩

/-- Character class `[\d\.]` of the pattern `T=([\d\.]+);H=([\d\.]+)`. -/
def isTempChar (c : Char) : Bool := c.isDigit || c = '.'

/-- Embedding of `self.re_temp.match(ans).groups()` for the anchored pattern
`T=([\d\.]+);H=([\d\.]+)`: the two greedy character-class runs never
backtrack (`;` is outside the class), so matching is literal-prefix,
longest-run, literal, longest-run; trailing text is ignored (`re.match`).
`none` models a failed match (on which `.groups()` raises). -/
def re_temp_match (cs : List Char) : Option (List Char × List Char) :=
  match cs with
  | 'T' :: '=' :: rest =>
    let g1 := rest.takeWhile isTempChar
    if g1.isEmpty then none
    else
      match rest.dropWhile isTempChar with
      | ';' :: 'H' :: '=' :: rest2 =>
        let g2 := rest2.takeWhile isTempChar
        if g2.isEmpty then none else some (g1, g2)
      | _ => none
  | _ => none

/-- Value of a run of decimal digits. -/
def digitsVal (cs : List Char) : Nat :=
  cs.foldl (fun a c => 10 * a + (c.toNat - 48)) 0

/-- Python `float(s)` on strings drawn from `[\d\.]+`: at most one dot and at
least one digit, value returned as an exact rational (IEEE rounding of the
stored value is abstracted; no claim inspects the numeric value). -/
def pyFloat (cs : List Char) : Option ℚ :=
  if cs.any Char.isDigit ∧ cs.count '.' ≤ 1 then
    let ip := cs.takeWhile (fun c => c ≠ '.')
    let fp := (cs.dropWhile (fun c => c ≠ '.')).drop 1
    some ((digitsVal ip : ℚ) + (digitsVal fp : ℚ) / (10 ^ fp.length))
  else
    none

/-- Embedding of:
```
def read_temp_humidity(self):
    if time.time() - self.__last_temp_read > 10:
        ans = self.write_read('TEMP?')
        t_h = [float(v) for v in self.re_temp.match(ans).groups()]
        self.__temperature = t_h[0]
        self.__humidity = t_h[1]
        self.__last_temp_read = time.time()
```
Both floats are computed inside the list comprehension before either
attribute is assigned, so a match or conversion failure leaves the whole
state unchanged. The Python local `ans` is
`(write_read "TEMP?" recv).payload`. -/
def read_temp_humidity (now : ℚ) (recv : Option String) (s : FemtoState) :
    RefreshResult :=
  if 10 < now - s.lastTempRead then
    match re_temp_match (write_read "TEMP?" recv).payload.data with
    | none => ⟨s, (write_read "TEMP?" recv).sent, true⟩
    | some (g1, g2) =>
      match pyFloat g1, pyFloat g2 with
      | some t, some h =>
        ⟨{ s with temperature := t, humidity := h, lastTempRead := now },
          (write_read "TEMP?" recv).sent, false⟩
      | _, _ => ⟨s, (write_read "TEMP?" recv).sent, true⟩
  else ⟨s, [], false⟩

/-- The full parse of a `TEMP?` payload: the two regex groups converted by
`float`. `none` when `read_temp_humidity` would raise while parsing. -/
def tempParse (ans : String) : Option (ℚ × ℚ) :=
  match re_temp_match ans.data with
  | none => none
  | some (g1, g2) =>
    match pyFloat g1, pyFloat g2 with
    | some t, some h => some (t, h)
    | _, _ => none

/-- Value `10**(base + gain)` with `base = 5 if speed else 3` (Python truthiness of
the stored int). -/
def amplification (gain speed : Nat) : Nat :=
  10 ^ ((if speed ≠ 0 then 5 else 3) + gain)

/-- Result of `read_amplification`: state after the call, returned value,
command lines sent. -/
structure AmpRead where
  state : FemtoState
  value : Nat
  sent : List String
  deriving DecidableEq, Repr

/-- Embedding of:
```
def read_amplification(self):
    base = 5 if self.__speed else 3
    return 10**(base + self.__gain)
```
Unlike `read_gain`/`read_coupling`/`read_speed`/`read_overload`, this method
does not call `update_status()`: it reads the two cached attributes directly
and performs no exchange. -/
def read_amplification (s : FemtoState) : AmpRead :=
  let base : Nat := if s.speed ≠ 0 then 5 else 3
  ⟨s, 10 ^ (base + s.gain), []⟩

/-- Embedding of `def write_gain(self, value): self.write_read(f'GAIN={value:d}')` — the
reply is discarded and no attribute is assigned (the cache update on line
143 is commented out in the source). -/
def write_gain (v : Int) (recv : Option String) (s : FemtoState) :
    WriteResult :=
  ⟨s, (write_read ("GAIN=" ++ toString v) recv).sent⟩

/-- Embedding of `def write_coupling(self, value): self.write_read(f'ACDC={value:d}')` —
the reply is discarded and no attribute is assigned. -/
def write_coupling (v : CouplingMode) (recv : Option String) (s : FemtoState) :
    WriteResult :=
  ⟨s, (write_read ("ACDC=" ++ toString v.val) recv).sent⟩

/-- Embedding of `def write_speed(self, value): self.write_read(f'SPEED={value:d}')` —
the reply is discarded and no attribute is assigned. -/
def write_speed (v : SpeedMode) (recv : Option String) (s : FemtoState) :
    WriteResult :=
  ⟨s, (write_read ("SPEED=" ++ toString v.val) recv).sent⟩

/-- A concrete cache state used by the closed example theorems: all parsed
fields zero, both throttle stamps at time 0, device state `ON`. -/
def exState : FemtoState :=
  { gain := 0
    coupling := 0
    speed := 0
    overload := 0
    temperature := 0
    humidity := 0
    lastStatusRead := 0
    lastTempRead := 0
    devState := DevState.ON }

/-- State `exState` one refresh earlier: status stamp at time `-1`. -/
def exStatePrev : FemtoState := { exState with lastStatusRead := -1 }

/-- The character a status bit is transmitted as. -/
def bitChar (b : Bool) : Char := if b then '1' else '0'

/-- Comparison definition taken from the words of the specification (not
from the source): the accumulated text trimmed of the trailing newline
delimiter. `write_read` is claimed to return this; it does not. -/
def specTrimmedPayload (s : String) : String :=
  if s.data.getLast? = some '\n' then String.mk s.data.dropLast else s

/-! ## Helper lemmas about the embedded operations -/

/-- Lemma: `write_read` always sends exactly its command line. -/
theorem write_read_sent (cmd : String) (recv : Option String) :
    (write_read cmd recv).sent = [cmd] := by
  cases recv with
  | none => rfl
  | some r =>
    unfold write_read
    by_cases hc : containsTok doneTok r.data = true
    · simp [hc]
    · simp [hc]

/-- A throttled `update_status` call: nothing sent, nothing changed. -/
theorem update_status_skip (now : ℚ) (recv : Option String) (s : FemtoState)
    (h : ¬ (1/2 < now - s.lastStatusRead)) :
    update_status now recv s = ⟨s, [], false⟩ := by
  unfold update_status
  rw [if_neg h]

/-- A stale `update_status` call always performs the `STATUS?` exchange. -/
theorem update_status_issue_of_stale (now : ℚ) (recv : Option String)
    (s : FemtoState) (h : 1/2 < now - s.lastStatusRead) :
    (update_status now recv s).sent = ["STATUS?"] := by
  unfold update_status
  rw [if_pos h]
  split
  · exact write_read_sent _ _
  · split
    · exact write_read_sent _ _
    · exact write_read_sent _ _

/-- A stale `update_status` call on an empty payload (transport failure or
`DONE` reply): the exception from `int('', base=2)` escapes before any
assignment, so the state is returned untouched. -/
theorem update_status_empty (now : ℚ) (recv : Option String) (s : FemtoState)
    (h : 1/2 < now - s.lastStatusRead)
    (he : (write_read "STATUS?" recv).payload = "") :
    update_status now recv s = ⟨s, ["STATUS?"], true⟩ := by
  unfold update_status
  rw [if_pos h, write_read_sent, he]
  rfl

/-- A stale `update_status` call whose payload parses completely: all four
fields, the timestamp and the Tango state are written from the one reply. -/
theorem update_status_stale_succ (now : ℚ) (recv : Option String)
    (s : FemtoState) (g c sp ov : Nat) (h : 1/2 < now - s.lastStatusRead)
    (hp : statusParse (write_read "STATUS?" recv).payload = some (g, c, sp, ov)) :
    update_status now recv s =
      ⟨{ s with
          gain := g
          coupling := c
          speed := sp
          overload := ov
          lastStatusRead := now
          devState := if ov ≠ 0 then DevState.FAULT else DevState.ON },
        ["STATUS?"], false⟩ := by
  unfold update_status
  rw [if_pos h]
  unfold statusParse at hp
  cases hg : pyIntBase2 ((write_read "STATUS?" recv).payload.data.take 3).reverse with
  | none => rw [hg] at hp; simp at hp
  | some g' =>
    rw [hg] at hp
    cases h3 : parse3Digits (((write_read "STATUS?" recv).payload.data.drop 3).take 3) with
    | none => rw [h3] at hp; simp at hp
    | some trip =>
      obtain ⟨c', sp', ov'⟩ := trip
      rw [h3] at hp
      simp only [Option.some.injEq, Prod.mk.injEq] at hp
      obtain ⟨rfl, rfl, rfl, rfl⟩ := hp
      rw [write_read_sent]

/-- A stale `update_status` call whose payload fails to parse: the call
errors, and every attribute except possibly `__gain` — in particular the
throttle timestamp and the Tango state — keeps its previous value. -/
theorem update_status_stale_fail (now : ℚ) (recv : Option String)
    (s : FemtoState) (h : 1/2 < now - s.lastStatusRead)
    (hp : statusParse (write_read "STATUS?" recv).payload = none) :
    (update_status now recv s).sent = ["STATUS?"] ∧
    (update_status now recv s).error = true ∧
    (update_status now recv s).state.coupling = s.coupling ∧
    (update_status now recv s).state.speed = s.speed ∧
    (update_status now recv s).state.overload = s.overload ∧
    (update_status now recv s).state.lastStatusRead = s.lastStatusRead ∧
    (update_status now recv s).state.devState = s.devState ∧
    (update_status now recv s).state.temperature = s.temperature ∧
    (update_status now recv s).state.humidity = s.humidity ∧
    (update_status now recv s).state.lastTempRead = s.lastTempRead := by
  unfold update_status
  rw [if_pos h]
  unfold statusParse at hp
  cases hg : pyIntBase2 ((write_read "STATUS?" recv).payload.data.take 3).reverse with
  | none => simp [write_read_sent]
  | some g' =>
    rw [hg] at hp
    cases h3 : parse3Digits (((write_read "STATUS?" recv).payload.data.drop 3).take 3) with
    | none => simp [hg, h3, write_read_sent]
    | some trip =>
      obtain ⟨c', sp', ov'⟩ := trip
      rw [h3] at hp
      simp at hp

/-- A throttled `read_temp_humidity` call: nothing sent, nothing changed. -/
theorem read_temp_humidity_skip (now : ℚ) (recv : Option String)
    (s : FemtoState) (h : ¬ (10 < now - s.lastTempRead)) :
    read_temp_humidity now recv s = ⟨s, [], false⟩ := by
  unfold read_temp_humidity
  rw [if_neg h]

/-- A stale `read_temp_humidity` call always performs the `TEMP?`
exchange. -/
theorem read_temp_humidity_issue_of_stale (now : ℚ) (recv : Option String)
    (s : FemtoState) (h : 10 < now - s.lastTempRead) :
    (read_temp_humidity now recv s).sent = ["TEMP?"] := by
  unfold read_temp_humidity
  rw [if_pos h]
  split
  · exact write_read_sent _ _
  · split
    · exact write_read_sent _ _
    · exact write_read_sent _ _

/-- A stale `read_temp_humidity` call whose payload parses: both values and
the timestamp are stored atomically. -/
theorem read_temp_humidity_stale_succ (now : ℚ) (recv : Option String)
    (s : FemtoState) (t hum : ℚ) (h : 10 < now - s.lastTempRead)
    (hp : tempParse (write_read "TEMP?" recv).payload = some (t, hum)) :
    read_temp_humidity now recv s =
      ⟨{ s with temperature := t, humidity := hum, lastTempRead := now },
        ["TEMP?"], false⟩ := by
  unfold read_temp_humidity
  rw [if_pos h]
  unfold tempParse at hp
  cases hm : re_temp_match (write_read "TEMP?" recv).payload.data with
  | none => simp [hm] at hp
  | some gs =>
    obtain ⟨g1, g2⟩ := gs
    simp only [hm] at hp ⊢
    cases h1 : pyFloat g1 with
    | none => simp [h1] at hp
    | some t' =>
      cases h2 : pyFloat g2 with
      | none => simp [h1, h2] at hp
      | some hum' =>
        simp only [h1, h2, Option.some.injEq, Prod.mk.injEq] at hp ⊢
        obtain ⟨rfl, rfl⟩ := hp
        simp [write_read_sent]

/-! ## Claim theorems -/

/-- C4, counterexample: for the accumulated reply text `"ABC\n"` (which does
not contain `"DONE"`), `write_read` returns `"ABC\n"` itself — not the text
trimmed of the trailing newline delimiter, as the claim states. -/
theorem write_read_untrimmed_cex :
    containsTok doneTok ("ABC\n").data = false ∧
    (write_read "ID?" (some "ABC\n")).payload = "ABC\n" ∧
    specTrimmedPayload "ABC\n" = "ABC" ∧
    (write_read "ID?" (some "ABC\n")).payload ≠ specTrimmedPayload "ABC\n" := by
  refine ⟨by decide, rfl, by decide, by decide⟩

/-- C4, amended: for every `write_read` call that succeeds (accumulated
reply `r`) with `r` not containing the token `"DONE"`, the returned payload
is the full accumulated text `r` unchanged — the trailing newline delimiter
included; no trimming occurs. -/
theorem write_read_passthrough (cmd r : String)
    (h : containsTok doneTok r.data = false) :
    (write_read cmd (some r)).payload = r := by
  unfold write_read
  simp [h]

/-- C4, witness: amended behaviour at the concrete reply `"ABC\n"`. -/
theorem write_read_passthrough_witness :
    (write_read "ID?" (some "ABC\n")).payload = "ABC\n" :=
  write_read_passthrough "ID?" "ABC\n" (by decide)

/-- C6: every accumulated reply containing the substring `"DONE"` anywhere
yields an empty payload from `write_read`, regardless of surrounding text. -/
theorem write_read_done_empty (cmd r : String)
    (h : containsTok doneTok r.data = true) :
    (write_read cmd (some r)).payload = "" := by
  unfold write_read
  simp [h]

/-- C6, witness: the reply `"ack DONE ok\n"` (token surrounded by other
text) yields an empty payload. -/
theorem write_read_done_empty_witness :
    (write_read "GAIN=3" (some "ack DONE ok\n")).payload = "" :=
  write_read_done_empty "GAIN=3" "ack DONE ok\n" (by decide)

/-- C10: the setters are total and independent of the exchange outcome: a
transport timeout or socket error is converted to an empty payload inside
`write_read`, the reply is discarded, and the setter's result is the same
whatever the socket delivered — a failed write is indistinguishable from a
successful one at the setter interface. -/
theorem setters_ignore_reply :
    (∀ cmd : String, (write_read cmd none).payload = "") ∧
    (∀ (v : Int) (r₁ r₂ : Option String) (s : FemtoState),
        write_gain v r₁ s = write_gain v r₂ s) ∧
    (∀ (v : CouplingMode) (r₁ r₂ : Option String) (s : FemtoState),
        write_coupling v r₁ s = write_coupling v r₂ s) ∧
    (∀ (v : SpeedMode) (r₁ r₂ : Option String) (s : FemtoState),
        write_speed v r₁ s = write_speed v r₂ s) := by
  refine ⟨fun cmd => rfl, fun v r₁ r₂ s => ?_, fun v r₁ r₂ s => ?_,
    fun v r₁ r₂ s => ?_⟩
  · unfold write_gain
    rw [write_read_sent, write_read_sent]
  · unfold write_coupling
    rw [write_read_sent, write_read_sent]
  · unfold write_speed
    rw [write_read_sent, write_read_sent]

/-- C9: each setter leaves the cached snapshot — all fields and both
timestamps — unchanged and sends exactly its own command line; the next
`getStatus()` past the throttle window performs a fresh `STATUS?`
exchange. -/
theorem setters_preserve_cache :
    (∀ (v : Int) (recv : Option String) (s : FemtoState),
        (write_gain v recv s).state = s ∧
        (write_gain v recv s).sent = ["GAIN=" ++ toString v]) ∧
    (∀ (v : CouplingMode) (recv : Option String) (s : FemtoState),
        (write_coupling v recv s).state = s ∧
        (write_coupling v recv s).sent = ["ACDC=" ++ toString v.val]) ∧
    (∀ (v : SpeedMode) (recv : Option String) (s : FemtoState),
        (write_speed v recv s).state = s ∧
        (write_speed v recv s).sent = ["SPEED=" ++ toString v.val]) ∧
    (∀ (now : ℚ) (recv : Option String) (s : FemtoState),
        1/2 < now - s.lastStatusRead →
        (update_status now recv s).sent = ["STATUS?"]) := by
  refine ⟨fun v recv s => ⟨rfl, ?_⟩, fun v recv s => ⟨rfl, ?_⟩,
    fun v recv s => ⟨rfl, ?_⟩, fun now recv s h => update_status_issue_of_stale now recv s h⟩
  · unfold write_gain
    rw [write_read_sent]
  · unfold write_coupling
    rw [write_read_sent]
  · unfold write_speed
    rw [write_read_sent]

/-- C9, witness: a concrete `setGain(5)` against a `DONE` acknowledgement
leaves the state unchanged, and a `getStatus()` half a second past the stamp
issues a fresh exchange. -/
theorem setters_preserve_cache_witness :
    (write_gain 5 (some "DONE\n") exState).state = exState ∧
    (write_coupling CouplingMode.DC none exState).sent = ["ACDC=1"] ∧
    (write_speed SpeedMode.Low none exState).sent = ["SPEED=1"] ∧
    (update_status 1 none exState).sent = ["STATUS?"] :=
  ⟨(setters_preserve_cache.1 5 (some "DONE\n") exState).1,
    (setters_preserve_cache.2.1 CouplingMode.DC none exState).2,
    (setters_preserve_cache.2.2.1 SpeedMode.Low none exState).2,
    setters_preserve_cache.2.2.2 1 none exState (by norm_num [exState])⟩

/-- C1, counterexample: with the status cache stale at time 10 (last stamp
at 0, well past the 0.5 throttle window — a `getStatus()` would perform a
`STATUS?` exchange and change the gain), `read_amplification` sends nothing,
refreshes nothing, and returns the value computed from the stale cache. -/
theorem read_amplification_stale_cex :
    ((1:ℚ)/2 < 10 - exState.lastStatusRead) ∧
    (read_amplification exState).sent = [] ∧
    (read_amplification exState).state = exState ∧
    (read_amplification exState).value = 10 ^ 3 ∧
    (update_status 10 (some "111000\n") exState).sent = ["STATUS?"] ∧
    (update_status 10 (some "111000\n") exState).state.gain = 7 ∧
    exState.gain = 0 := by
  have h : (1:ℚ)/2 < 10 - exState.lastStatusRead := by norm_num [exState]
  have hs : update_status 10 (some "111000\n") exState =
      ⟨{ exState with
          gain := 7
          coupling := 0
          speed := 0
          overload := 0
          lastStatusRead := 10
          devState := DevState.ON }, ["STATUS?"], false⟩ := by
    unfold update_status
    rw [if_pos h]
    rfl
  refine ⟨h, rfl, rfl, rfl, ?_, ?_, rfl⟩
  · rw [hs]
  · rw [hs]

/-- C1, amended: `read_amplification` does not trigger a `getStatus()`
refresh and issues no `STATUS?` exchange; it computes `10^(base+gain)`
directly from the cached gain and speed fields, leaving the state untouched
— so its value can be stale relative to the device's current gain/speed. -/
theorem read_amplification_pure_of_cache (s : FemtoState) :
    read_amplification s = ⟨s, amplification s.gain s.speed, []⟩ := rfl

/-- C8: amplification is the pure function `10^(base+gain)` of the cached
gain and speed, with base 5 for Low speed (enum value 1, truthy) and base 3
for High speed (enum value 0); in particular `amplification 0 High = 10^3`
and `amplification 2 Low = 10^7`. -/
theorem amplification_values :
    (∀ s : FemtoState, (read_amplification s).value = amplification s.gain s.speed) ∧
    (∀ g : Nat, amplification g SpeedMode.Low.val = 10 ^ (5 + g)) ∧
    (∀ g : Nat, amplification g SpeedMode.High.val = 10 ^ (3 + g)) ∧
    amplification 0 SpeedMode.High.val = 10 ^ 3 ∧
    amplification 2 SpeedMode.Low.val = 10 ^ 7 :=
  ⟨fun _ => rfl, fun _ => rfl, fun _ => rfl, rfl, rfl⟩

/-- C5: for every 6-character bit-string `STATUS?` reply `b0 b1 b2 b3 b4 b5`,
the parsed snapshot has gain equal to the reversed first three bits read as
binary (bit 0 least significant), coupling = b3, speed = b4, overload = b5
— and the whole snapshot plus timestamp and Tango state is stored. -/
theorem status_parse_bits (b0 b1 b2 b3 b4 b5 : Bool) (now : ℚ)
    (s : FemtoState) (h : 1/2 < now - s.lastStatusRead) :
    update_status now
        (some (String.mk [bitChar b0, bitChar b1, bitChar b2, bitChar b3,
          bitChar b4, bitChar b5])) s =
      ⟨{ s with
          gain := (cond b2 4 0) + (cond b1 2 0) + (cond b0 1 0)
          coupling := cond b3 1 0
          speed := cond b4 1 0
          overload := cond b5 1 0
          lastStatusRead := now
          devState := cond b5 DevState.FAULT DevState.ON },
        ["STATUS?"], false⟩ := by
  unfold update_status
  rw [if_pos h]
  cases b0 <;> cases b1 <;> cases b2 <;> cases b3 <;> cases b4 <;> cases b5 <;> rfl

/-- C5, witness: the reply `"001011"` parses to gain `100₂ = 4`, coupling 0,
speed 1, overload 1 (the spec's primary regression scenario). -/
theorem status_parse_bits_witness :
    update_status 1
        (some (String.mk [bitChar false, bitChar false, bitChar true,
          bitChar false, bitChar true, bitChar true])) exState =
      ⟨{ exState with
          gain := 4
          coupling := 0
          speed := 1
          overload := 1
          lastStatusRead := 1
          devState := DevState.FAULT },
        ["STATUS?"], false⟩ :=
  status_parse_bits false false true false true true 1 exState
    (by norm_num [exState])

/-- C7: after every successful `update_status` refresh, the Tango device
state is `FAULT` iff the parsed overload bit is 1 and `ON` iff it is 0. -/
theorem overload_devstate (now : ℚ) (recv : Option String) (s : FemtoState)
    (g c sp ov : Nat) (h : 1/2 < now - s.lastStatusRead)
    (hp : statusParse (write_read "STATUS?" recv).payload = some (g, c, sp, ov))
    (hov : ov ≤ 1) :
    ((update_status now recv s).state.devState = DevState.FAULT ↔
        (update_status now recv s).state.overload = 1) ∧
    ((update_status now recv s).state.devState = DevState.ON ↔
        (update_status now recv s).state.overload = 0) := by
  rw [update_status_stale_succ now recv s g c sp ov h hp]
  interval_cases ov <;> simp

/-- C7, witness: the reply `"001011"` (overload bit 1) drives the device
into `FAULT`, and the two equivalences hold at that snapshot. -/
theorem overload_devstate_witness :
    ((update_status 1 (some "001011\n") exState).state.devState = DevState.FAULT ↔
        (update_status 1 (some "001011\n") exState).state.overload = 1) ∧
    ((update_status 1 (some "001011\n") exState).state.devState = DevState.ON ↔
        (update_status 1 (some "001011\n") exState).state.overload = 0) :=
  overload_devstate 1 (some "001011\n") exState 4 0 1 1
    (by norm_num [exState]) (by decide) (by decide)

/-- C2, counterexample: at a stale cache, the reply `"100x11\n"` — whose
first three characters parse as the binary gain 1 but whose remainder does
not parse — makes `update_status` error out with the cached gain already
overwritten: the four fields do not update atomically. -/
theorem update_status_nonatomic_cex :
    ((1:ℚ)/2 < 1 - exState.lastStatusRead) ∧
    statusParse (write_read "STATUS?" (some "100x11\n")).payload = none ∧
    (update_status 1 (some "100x11\n") exState).error = true ∧
    (update_status 1 (some "100x11\n") exState).state.gain = 1 ∧
    exState.gain = 0 := by
  have h : (1:ℚ)/2 < 1 - exState.lastStatusRead := by norm_num [exState]
  have hs : update_status 1 (some "100x11\n") exState =
      ⟨{ exState with gain := 1 }, ["STATUS?"], true⟩ := by
    unfold update_status
    rw [if_pos h]
    rfl
  refine ⟨h, by decide, ?_, ?_, rfl⟩
  · rw [hs]
  · rw [hs]

/-- C2, amended: on a stale call, an empty payload (transport failure or
`DONE` reply) leaves the whole state — all four fields and the timestamp —
untouched and flags the failure, so the next call retries past the throttle
window; a fully parsed reply writes all four fields plus timestamp and
Tango state from the one reply; but a reply whose gain prefix parses while
the rest fails updates gain alone, leaving coupling, speed, overload, the
timestamp and the Tango state unchanged — atomicity fails only there. -/
theorem update_status_failure_frame (now : ℚ) (recv : Option String)
    (s : FemtoState) (h : 1/2 < now - s.lastStatusRead) :
    ((write_read "STATUS?" recv).payload = "" →
        update_status now recv s = ⟨s, ["STATUS?"], true⟩) ∧
    (statusParse (write_read "STATUS?" recv).payload = none →
        (update_status now recv s).error = true ∧
        (update_status now recv s).state.coupling = s.coupling ∧
        (update_status now recv s).state.speed = s.speed ∧
        (update_status now recv s).state.overload = s.overload ∧
        (update_status now recv s).state.lastStatusRead = s.lastStatusRead ∧
        (update_status now recv s).state.devState = s.devState) ∧
    (∀ g c sp ov : Nat,
        statusParse (write_read "STATUS?" recv).payload = some (g, c, sp, ov) →
        update_status now recv s =
          ⟨{ s with
              gain := g
              coupling := c
              speed := sp
              overload := ov
              lastStatusRead := now
              devState := if ov ≠ 0 then DevState.FAULT else DevState.ON },
            ["STATUS?"], false⟩) := by
  refine ⟨fun he => update_status_empty now recv s h he, fun hp => ?_,
    fun g c sp ov hp => update_status_stale_succ now recv s g c sp ov h hp⟩
  obtain ⟨-, h2, h3, h4, h5, h6, h7, -, -, -⟩ :=
    update_status_stale_fail now recv s h hp
  exact ⟨h2, h3, h4, h5, h6, h7⟩

/-- C2, witness: the empty-payload case at a timeout (`recv = none`) and the
full-success case at reply `"001011"`. -/
theorem update_status_failure_frame_witness :
    update_status 1 none exState = ⟨exState, ["STATUS?"], true⟩ ∧
    update_status 1 (some "001011\n") exState =
      ⟨{ exState with
          gain := 4
          coupling := 0
          speed := 1
          overload := 1
          lastStatusRead := 1
          devState := DevState.FAULT },
        ["STATUS?"], false⟩ :=
  ⟨(update_status_failure_frame 1 none exState (by norm_num [exState])).1 rfl,
    (update_status_failure_frame 1 (some "001011\n") exState
      (by norm_num [exState])).2.2 4 0 1 1 (by decide)⟩

/-- C3, counterexample: a successful refresh at time 0 followed by a call at
time 0.5 — separation exactly 0.5, i.e. ≥ the window — issues no new
exchange, because the code's throttle test is strict (`> 0.5`). -/
theorem status_throttle_boundary_cex :
    ((1:ℚ)/2 - 0 ≥ 1/2) ∧
    (update_status 0 (some "000000\n") exStatePrev).sent = ["STATUS?"] ∧
    (update_status 0 (some "000000\n") exStatePrev).error = false ∧
    (update_status 0 (some "000000\n") exStatePrev).state.lastStatusRead = 0 ∧
    (update_status (1/2) (some "000000\n")
        (update_status 0 (some "000000\n") exStatePrev).state).sent = [] := by
  have h : (1:ℚ)/2 < 0 - exStatePrev.lastStatusRead := by
    norm_num [exStatePrev, exState]
  have hs : update_status 0 (some "000000\n") exStatePrev =
      ⟨{ exStatePrev with
          gain := 0
          coupling := 0
          speed := 0
          overload := 0
          lastStatusRead := 0
          devState := DevState.ON },
        ["STATUS?"], false⟩ := by
    unfold update_status
    rw [if_pos h]
    rfl
  refine ⟨by norm_num, ?_, ?_, ?_, ?_⟩
  · rw [hs]
  · rw [hs]
  · rw [hs]
  · rw [hs]
    rw [update_status_skip (1/2) (some "000000\n") _ (by norm_num)]

/-- C3, amended: after a successful refresh stamped at `now₁`, a second call
strictly less than 0.5 later issues no exchange (so two such calls issue at
most one `STATUS?`); a call strictly more than 0.5 past the stamp always
issues a new exchange — at exactly 0.5 it does not, and the guarantee
presupposes the first refresh succeeded (a failed one stamps nothing and
the next call retries). The same holds for `read_temp_humidity` with the
10-unit window and `TEMP?`. -/
theorem throttle_windows :
    (∀ (now₁ now₂ : ℚ) (recv recv' : Option String) (s : FemtoState)
        (g c sp ov : Nat),
        1/2 < now₁ - s.lastStatusRead →
        statusParse (write_read "STATUS?" recv).payload = some (g, c, sp, ov) →
        now₂ - now₁ < 1/2 →
        (update_status now₂ recv' (update_status now₁ recv s).state).sent = []) ∧
    (∀ (now : ℚ) (recv : Option String) (s : FemtoState),
        1/2 < now - s.lastStatusRead →
        (update_status now recv s).sent = ["STATUS?"]) ∧
    (∀ (now₁ now₂ : ℚ) (recv recv' : Option String) (s : FemtoState),
        10 < now₁ - s.lastTempRead →
        (tempParse (write_read "TEMP?" recv).payload).isSome = true →
        now₂ - now₁ < 10 →
        (read_temp_humidity now₂ recv'
          (read_temp_humidity now₁ recv s).state).sent = []) ∧
    (∀ (now : ℚ) (recv : Option String) (s : FemtoState),
        10 < now - s.lastTempRead →
        (read_temp_humidity now recv s).sent = ["TEMP?"]) := by
  refine ⟨?_, update_status_issue_of_stale, ?_, read_temp_humidity_issue_of_stale⟩
  · intro now₁ now₂ recv recv' s g c sp ov h hp hw
    rw [update_status_stale_succ now₁ recv s g c sp ov h hp]
    have hx : ¬ ((1:ℚ)/2 < now₂ - now₁) := by linarith
    rw [update_status_skip now₂ recv' _ hx]
  · intro now₁ now₂ recv recv' s h hp hw
    obtain ⟨⟨t, hum⟩, hp'⟩ := Option.isSome_iff_exists.mp hp
    rw [read_temp_humidity_stale_succ now₁ recv s t hum h hp']
    have hx : ¬ ((10:ℚ) < now₂ - now₁) := by linarith
    rw [read_temp_humidity_skip now₂ recv' _ hx]

/-- C3, witness: two status calls at the same instant (separation 0 < 0.5,
one exchange), a stale status call issuing one, and the temperature
analogues at times 11 and 12 with the reply `"T=21.5;H=40"`. -/
theorem throttle_windows_witness :
    (update_status 1 none (update_status 1 (some "001011\n") exState).state).sent = [] ∧
    (update_status 1 (some "001011\n") exState).sent = ["STATUS?"] ∧
    (read_temp_humidity 12 none
      (read_temp_humidity 11 (some "T=21.5;H=40\n") exState).state).sent = [] ∧
    (read_temp_humidity 11 (some "T=21.5;H=40\n") exState).sent = ["TEMP?"] :=
  ⟨throttle_windows.1 1 1 (some "001011\n") none exState 4 0 1 1
      (by norm_num [exState]) (by decide) (by norm_num),
    throttle_windows.2.1 1 (some "001011\n") exState (by norm_num [exState]),
    throttle_windows.2.2.1 11 12 (some "T=21.5;H=40\n") none exState
      (by norm_num [exState]) (by decide) (by norm_num),
    throttle_windows.2.2.2 11 (some "T=21.5;H=40\n") exState
      (by norm_num [exState])⟩
